import Mathlib

/-!
Verification of `src/bounding_box_prompting.py` (europa_surface).

The file shallowly embeds the two pieces of logic the specification
describes: the checkpoint resolver inside `bounding_box_prompt`
(lines 86-92) and the grid-plotting helper `plot_images_grid`
(lines 23-77).  Side effects of the plotting library are modelled as an
explicit event trace; Python exceptions are modelled by an `Option PyError`
outcome; the in-place mutation of the `images` list is modelled by
returning the post-call list.

External collaborators (matplotlib, cv2, supervision, torch) are modelled
from their documented contracts where the script calls them:
* `plt.subplots(nrows, ncols)` uses matplotlib's default `squeeze=True`:
  when `nrows == ncols == 1` it returns a bare `Axes` object (not an
  array), and a bare `Axes` has no `flat` attribute, so the subsequent
  `axes.flat` raises `AttributeError`; when `nrows` or `ncols` is zero it
  raises `ValueError`; otherwise `axes.flat` enumerates the
  `nrows * ncols` axes in row-major order.
* `cv2.cvtColor(img, cv2.COLOR_BGR2RGB)` reverses the channel order of
  every pixel (the last axis of the array).
* `supervision.utils.conversion.pillow_to_cv2` converts a PIL image to a
  pixel-buffer array with the per-pixel channel order reversed
  (`np.asarray` followed by an RGB-to-BGR conversion).
-/

namespace EuropaSurface

/-! ## Python substring containment (`sub in s`) -/

/-- Predicate `leadsWith sub l` holds when `sub` occurs at the very start of `l`. -/
def leadsWith : List Char → List Char → Bool
  | [], _ => true
  | _ :: _, [] => false
  | a :: as, b :: bs => a == b && leadsWith as bs

/-- Predicate `hasSub sub l` is Python's `sub in l`: `sub` occurs contiguously
somewhere in `l`. -/
def hasSub (sub : List Char) : List Char → Bool
  | [] => sub.isEmpty
  | c :: rest => leadsWith sub (c :: rest) || hasSub sub rest

/-- Python's `sub in s` on strings. -/
def pyIn (sub s : String) : Bool := hasSub sub.data s.data

/-- The mathematical substring relation: `s` splits as some prefix,
then `sub`, then some suffix. -/
def StrHasSub (sub s : String) : Prop :=
  ∃ p q, s.data = p ++ sub.data ++ q

/-! ## Checkpoint resolver (`bounding_box_prompt`, lines 86-92)

```python
if os.path.isdir(ckpt):
    ckpts = [os.path.join(ckpt, x) for x in os.listdir(ckpt)
             if '.pt' in x or '.pth' in x]
else:
    ckpts = [ckpt]
```
-/

/-- The filter used by the list comprehension: `'.pt' in x or '.pth' in x`. -/
def ckptEntryMatch (x : String) : Bool := pyIn ".pt" x || pyIn ".pth" x

/-- Python's `os.path.join(dir, entry)` for a plain relative entry. -/
def pathJoin (d x : String) : String := d ++ "/" ++ x

/-- The checkpoint resolver.  `isdir` is `os.path.isdir(ckpt)` and
`listing` is `os.listdir(ckpt)` of the environment. -/
def resolve_checkpoints (ckpt : String) (isdir : Bool) (listing : List String) :
    List String :=
  if isdir then (listing.filter ckptEntryMatch).map (pathJoin ckpt)
  else [ckpt]

/-- The simplified filter predicate considered by the refinement claim:
a name containing `.pt` (whether or not it also contains `.pth`). -/
def simpleEntryMatch (x : String) : Bool := pyIn ".pt" x

/-! ## Image model

`ImageType` (from `supervision.annotators.base`) accepts either a
`PIL.Image.Image` or a `numpy.ndarray`.  Both carry a shape and a flat
row-major pixel buffer. -/

/-- A `PIL.Image.Image` value (pixel view: shape and flat data). -/
structure PILImage where
  shape : List Nat
  data : List Int
deriving DecidableEq

/-- A `numpy.ndarray` of pixel data: shape and flat row-major buffer. -/
structure NDArray where
  shape : List Nat
  data : List Int
deriving DecidableEq

/-- Field `ndarray.ndim`: the number of axes. -/
def NDArray.ndim (a : NDArray) : Nat := a.shape.length

/-- Union `ImageType`: either a PIL image or a pixel array. -/
inductive PyImage where
  | pil (img : PILImage)
  | arr (a : NDArray)
deriving DecidableEq

/-- Reverse each consecutive chunk of `c` elements of a flat buffer
(the per-pixel channel reversal behind RGB<->BGR conversions). -/
def chunkReverse (c : Nat) : List Int → List Int
  | [] => []
  | x :: xs =>
    if _hc : c = 0 then x :: xs
    else ((x :: xs).take c).reverse ++ chunkReverse c ((x :: xs).drop c)
termination_by l => l.length
decreasing_by
  simp only [List.length_drop, List.length_cons]
  omega

/-- Call `cv2.cvtColor(img, cv2.COLOR_BGR2RGB)` (and its RGB-to-BGR mirror):
reverse the channel order of every pixel, i.e. reverse each chunk whose
size is the last axis of the shape.  (cv2 only accepts suitably
channelled arrays; the script only reaches this call on `ndim != 2`
inputs and only 3-channel inputs occur in the pipeline.) -/
def cvtColorSwapRB (a : NDArray) : NDArray :=
  { shape := a.shape, data := chunkReverse (a.shape.getLastD 1) a.data }

/-- External collaborator `supervision.utils.conversion.pillow_to_cv2`:
the numpy view of the PIL image with per-pixel channel order reversed. -/
def pillow_to_cv2 (p : PILImage) : NDArray :=
  cvtColorSwapRB { shape := p.shape, data := p.data }

/-- The in-place normalisation loop at the top of `plot_images_grid`
(`images[idx] = pillow_to_cv2(img)` for PIL entries): what each entry of
the caller's list holds after the loop. -/
def normalizeEntry : PyImage → PyImage
  | .pil p => .arr (pillow_to_cv2 p)
  | .arr a => .arr a

/-- The pixel array each entry denotes after normalisation. -/
def entryArr : PyImage → NDArray
  | .pil p => pillow_to_cv2 p
  | .arr a => a

/-! ## `plot_images_grid` (lines 23-77) -/

/-- Python exceptions that the modelled code paths can raise. -/
inductive PyError where
  | valueError (msg : String)
  | attributeError (msg : String)
  | assertionError (msg : String)
  | typeError (msg : String)
deriving DecidableEq

/-- Observable effects of one `plot_images_grid` call, in order. -/
inductive PlotEvent where
  /-- Call `plt.subplots(nrows=nrows, ncols=ncols, figsize=size)` succeeded. -/
  | figureAllocated (nrows ncols : Nat) (size : Nat × Nat)
  /-- Call `ax.imshow(img, cmap=...)` on the cell `idx`; `cmapUsed` is the
  colormap passed (`none` when `imshow` is called without one). -/
  | imshow (idx : Nat) (img : NDArray) (cmapUsed : Option String)
  /-- Call `ax.set_title(t)` on the cell `idx`. -/
  | setTitle (idx : Nat) (t : String)
  /-- Call `ax.axis("off")` on the cell `idx`. -/
  | axisOff (idx : Nat)
  /-- Call `plt.savefig(path)`: the figure is persisted to `path`. -/
  | savefig (path : String)
  /-- Call `plt.show()`: the figure is displayed interactively. -/
  | showFig
  /-- Call `plt.close()`: the figure resource is released. -/
  | close
deriving DecidableEq

/-- The message of the `ValueError` raised on a capacity violation
(lines 55-58). -/
def gridCapacityMsg : String :=
  "The number of images exceeds the grid size. Please increase the grid"
    ++ " size or reduce the number of images."

/-- matplotlib's error when `plt.subplots` gets a non-positive count. -/
def subplotsPositiveMsg : String :=
  "Number of rows must be a positive integer"

/-- matplotlib's error when `axes.flat` is read off the bare `Axes`
returned by `plt.subplots(1, 1)` (default `squeeze=True`). -/
def axesFlatMsg : String :=
  "Axes object has no attribute flat"

/-- Result of one `plot_images_grid` call: the caller's `images` list
after the call (the function mutates it in place), the exception raised
(if any), and the trace of plotting-library effects. -/
structure PlotResult where
  imagesAfter : List PyImage
  outcome : Option PyError
  events : List PlotEvent
deriving DecidableEq

/-- The rendering call for the cell `idx` holding the array `a`
(lines 64-67): 2-dim arrays go through `imshow` with the given `cmap`;
all other arrays go through `cv2.cvtColor(..., COLOR_BGR2RGB)` and
`imshow` without a colormap. -/
def imshowEvents (cmap : Option String) (idx : Nat) (a : NDArray) :
    List PlotEvent :=
  if a.ndim = 2 then [PlotEvent.imshow idx a cmap]
  else [PlotEvent.imshow idx (cvtColorSwapRB a) none]

/-- The title the cell `idx` receives, if any: the guard
`titles is not None and idx < len(titles)` of line 69, and the value
`titles[idx]` of line 70. -/
def titleAt : Option (List String) → Nat → Option String
  | some ts, idx => ts.get? idx
  | none, _ => none

/-- The `set_title` call for the cell `idx`, when its guard passes. -/
def titleEvents (titles : Option (List String)) (idx : Nat) :
    List PlotEvent :=
  (titleAt titles idx).elim [] (fun t => [PlotEvent.setTitle idx t])

/-- The loop body for the cell `idx` (lines 62-72): if an image exists
for this index, `imshow` it and attach the title when one exists; in
every case switch the axis decorations off. -/
def cellEvents (arrs : List NDArray) (titles : Option (List String))
    (cmap : Option String) (idx : Nat) : List PlotEvent :=
  (arrs.get? idx).elim []
      (fun a => imshowEvents cmap idx a ++ titleEvents titles idx) ++
    [PlotEvent.axisOff idx]

/-- Call `plt.savefig(save_path)` when a path was given, else `plt.show()`
(lines 73-76). -/
def persistEvents : Option String → List PlotEvent
  | some p => [PlotEvent.savefig p]
  | none => [PlotEvent.showFig]

/-- Shallow embedding of `plot_images_grid` (lines 23-77).  The PIL
entries of `images` are first replaced in place by their cv2
conversions; then the capacity check runs; then `plt.subplots` is
called (failing for zero-sized or squeezed 1x1 grids as documented in
the header comment); then each of the `nrows * ncols` cells is rendered
in row-major order; finally the figure is saved or shown and closed.
`plt.close()` is only reached when no exception was raised before it. -/
def plot_images_grid (images : List PyImage) (grid_size : Nat × Nat)
    (titles : Option (List String)) (size : Nat × Nat)
    (cmap : Option String) (save_path : Option String) : PlotResult :=
  if images.length > grid_size.1 * grid_size.2 then
    { imagesAfter := images.map normalizeEntry
      outcome := some (PyError.valueError gridCapacityMsg)
      events := [] }
  else if grid_size.1 = 0 ∨ grid_size.2 = 0 then
    { imagesAfter := images.map normalizeEntry
      outcome := some (PyError.valueError subplotsPositiveMsg)
      events := [] }
  else if grid_size.1 = 1 ∧ grid_size.2 = 1 then
    { imagesAfter := images.map normalizeEntry
      outcome := some (PyError.attributeError axesFlatMsg)
      events := [PlotEvent.figureAllocated grid_size.1 grid_size.2 size] }
  else
    { imagesAfter := images.map normalizeEntry
      outcome := none
      events :=
        PlotEvent.figureAllocated grid_size.1 grid_size.2 size ::
          ((List.range (grid_size.1 * grid_size.2)).flatMap
              (cellEvents (images.map entryArr) titles cmap) ++
            persistEvents save_path ++ [PlotEvent.close]) }

/-- Events that make the rendered figure leave the process: `savefig`
and `show`. -/
def isPersistEvent : PlotEvent → Bool
  | .savefig _ => true
  | .showFig => true
  | _ => false

/-- Length of an optional titles list (`None` carries no titles). -/
def titlesLen : Option (List String) → Nat
  | some ts => ts.length
  | none => 0

/-! ## `bounding_box_prompt` (lines 80-146) -/

/-- The fields of the `args` object that the function reads or writes. -/
structure Args where
  exp_name : Option String
  lora_ckpt : Option String
  testing_ckpt : Option String
  eval_datasets : List String
  data_location : String
  wandb : Bool
  num_classes : Option Nat
  ignore_index : Option Int

/-- The external world the function consults: CUDA availability and the
filesystem/dataset collaborators.  `dirListing p` is `some entries` when
`p` is a directory (with `os.listdir p = entries`) and `none` otherwise. -/
structure PyEnv where
  cudaAvailable : Bool
  cudaDeviceCount : Nat
  dirListing : String → Option (List String)
  dsNumClasses : String → Nat
  dsIgnoreIndex : String → Int

/-- Observable resource acquisitions of one `bounding_box_prompt` run. -/
inductive RunEvent where
  /-- Call `torch.device(...)` was chosen (line 83). -/
  | deviceSelected (device : String)
  /-- A dataset instance was constructed (line 97). -/
  | datasetConstructed (name root : String)
  /-- Call `get_model(args, dataset)` was invoked (line 104). -/
  | modelConstructed (ckpt : String)
  /-- Call `model.load_state_dict(torch.load(fold_ckpt, ...))` (line 107). -/
  | stateDictLoaded (ckpt : String)
  /-- The per-batch loop over the data loader ran (lines 117-146); its
  body (inference, mask extraction, annotation, plotting) depends on
  external data and is an external-collaborator boundary here. -/
  | evalLoopRun (datasetName ckpt : String)

/-- Result of one `bounding_box_prompt` run. -/
structure RunResult where
  argsAfter : Args
  outcome : Option PyError
  events : List RunEvent

/-- The message of the failed `assert args.exp_name is not None`. -/
def assertExpNameMsg : String := "assert args.exp_name is not None"

/-- Python's error for `os.path.isdir(None)`. -/
def isdirNoneMsg : String :=
  "argument should be a str or an os.PathLike object, not NoneType"

/-- The inner checkpoint loop (lines 102-146) for one dataset: for each
fold checkpoint, set `args.lora_ckpt`, build the model, load the saved
state when `args.testing_ckpt` is set, and run the evaluation loop. -/
def ckptLoop (dsName : String) (ckpts : List String) (a : Args) :
    Args × List RunEvent :=
  ckpts.foldl
    (fun acc fc =>
      ({ acc.1 with lora_ckpt := some fc },
        acc.2 ++ [RunEvent.modelConstructed fc] ++
          (if acc.1.testing_ckpt.isSome then [RunEvent.stateDictLoaded fc]
           else []) ++
          [RunEvent.evalLoopRun dsName fc]))
    (a, [])

/-- The outer dataset loop (lines 94-146): construct each evaluation
dataset, record its `num_classes` and `ignore_index` on `args`, and run
the checkpoint loop over it. -/
def datasetLoop (env : PyEnv) (ckpts : List String) (names : List String)
    (root : String) (a : Args) : Args × List RunEvent :=
  names.foldl
    (fun acc nm =>
      let a1 := { acc.1 with
        num_classes := some (env.dsNumClasses nm)
        ignore_index := some (env.dsIgnoreIndex nm) }
      let r := ckptLoop nm ckpts a1
      (r.1, acc.2 ++ [RunEvent.datasetConstructed nm root] ++ r.2))
    (a, [])

/-- Shallow embedding of `bounding_box_prompt` (lines 80-146): set
`args.wandb = False`, assert that the experiment name is present, select
the device, resolve the checkpoint path(s), and run the dataset and
checkpoint loops. -/
def bounding_box_prompt (args : Args) (env : PyEnv) : RunResult :=
  let args1 := { args with wandb := false }
  match args1.exp_name with
  | none =>
    { argsAfter := args1
      outcome := some (PyError.assertionError assertExpNameMsg)
      events := [] }
  | some _ =>
    let device := if env.cudaAvailable then "cuda:0" else "cpu"
    match (match args1.lora_ckpt with
           | some c => some c
           | none => args1.testing_ckpt) with
    | none =>
      { argsAfter := args1
        outcome := some (PyError.typeError isdirNoneMsg)
        events := [RunEvent.deviceSelected device] }
    | some ckpt =>
      let ckpts := resolve_checkpoints ckpt (env.dirListing ckpt).isSome
        ((env.dirListing ckpt).getD [])
      let r := datasetLoop env ckpts args1.eval_datasets args1.data_location args1
      { argsAfter := r.1
        outcome := none
        events := RunEvent.deviceSelected device :: r.2 }

/-! ## Concrete inputs used by witnesses and counterexamples -/

/-- A small 2x2 grayscale array. -/
def grayImg : NDArray := { shape := [2, 2], data := [0, 1, 2, 3] }

/-- A 1x1 colour array (three channels, BGR order). -/
def rgbPixel : NDArray := { shape := [1, 1, 3], data := [10, 20, 30] }

/-- The 64x64 grayscale checkerboard of the specification's concrete
scenario. -/
def checkerboard64 : NDArray :=
  { shape := [64, 64]
    data := (List.range 64).flatMap
      (fun i => (List.range 64).map (fun j => ((i + j) % 2 : Int))) }

/-- A 1x1 colour PIL image. -/
def pilDemo : PILImage := { shape := [1, 1, 3], data := [5, 6, 7] }

/-- An `args` object with a missing experiment name. -/
def demoArgs : Args :=
  { exp_name := none, lora_ckpt := none, testing_ckpt := none
    eval_datasets := [], data_location := "", wandb := true
    num_classes := none, ignore_index := none }

/-- A minimal environment: no CUDA, empty filesystem. -/
def demoEnv : PyEnv :=
  { cudaAvailable := false, cudaDeviceCount := 0
    dirListing := fun _ => none, dsNumClasses := fun _ => 0
    dsIgnoreIndex := fun _ => 0 }

/-! ## Substring lemmas -/

theorem leadsWith_iff (sub l : List Char) :
    leadsWith sub l = true ↔ ∃ q, l = sub ++ q := by
  induction sub generalizing l with
  | nil => simp [leadsWith]
  | cons a as ih =>
    cases l with
    | nil => simp [leadsWith]
    | cons b bs =>
      simp only [leadsWith, Bool.and_eq_true, beq_iff_eq, ih, List.cons_append,
        List.cons.injEq]
      constructor
      · rintro ⟨rfl, q, rfl⟩; exact ⟨q, rfl, rfl⟩
      · rintro ⟨q, rfl, rfl⟩; exact ⟨rfl, q, rfl⟩

theorem hasSub_iff (sub l : List Char) :
    hasSub sub l = true ↔ ∃ p q, l = p ++ sub ++ q := by
  induction l with
  | nil =>
    simp only [hasSub, List.isEmpty_iff]
    constructor
    · rintro rfl; exact ⟨[], [], rfl⟩
    · rintro ⟨p, q, h⟩
      rcases List.append_eq_nil.mp h.symm with ⟨h1, h2⟩
      exact (List.append_eq_nil.mp h1).2
  | cons c rest ih =>
    simp only [hasSub, Bool.or_eq_true, leadsWith_iff, ih]
    constructor
    · rintro (⟨q, hq⟩ | ⟨p, q, hpq⟩)
      · exact ⟨[], q, by simpa using hq⟩
      · exact ⟨c :: p, q, by simp [hpq]⟩
    · rintro ⟨p, q, hpq⟩
      cases p with
      | nil => exact Or.inl ⟨q, by simpa using hpq⟩
      | cons x xs =>
        simp only [List.cons_append, List.cons.injEq] at hpq
        exact Or.inr ⟨xs, q, hpq.2⟩

theorem pyIn_iff (sub s : String) : pyIn sub s = true ↔ StrHasSub sub s := by
  unfold pyIn StrHasSub
  exact hasSub_iff sub.data s.data

theorem strHasSub_pth_pt (x : String) (h : StrHasSub ".pth" x) :
    StrHasSub ".pt" x := by
  rcases h with ⟨p, q, hx⟩
  refine ⟨p, 'h' :: q, ?_⟩
  simpa using hx

/-! ## Claim C3 -/

/-- C3: given a directory, the resolver returns exactly the joined paths
of the entries whose names contain `.pt` or `.pth`, and nothing else;
given a non-directory it returns the one-element list of the input path. -/
theorem resolve_checkpoints_spec (ckpt : String) (listing : List String)
    (p : String) :
    (p ∈ resolve_checkpoints ckpt true listing ↔
      ∃ x, x ∈ listing ∧ (StrHasSub ".pt" x ∨ StrHasSub ".pth" x) ∧
        p = pathJoin ckpt x) ∧
    resolve_checkpoints ckpt false listing = [ckpt] := by
  constructor
  · have hr : resolve_checkpoints ckpt true listing =
        (listing.filter ckptEntryMatch).map (pathJoin ckpt) := rfl
    rw [hr]
    simp only [List.mem_map, List.mem_filter]
    constructor
    · rintro ⟨x, ⟨hmem, hmatch⟩, rfl⟩
      refine ⟨x, hmem, ?_, rfl⟩
      unfold ckptEntryMatch at hmatch
      rcases Bool.or_eq_true _ _ |>.mp hmatch with h | h
      · exact Or.inl ((pyIn_iff _ _).mp h)
      · exact Or.inr ((pyIn_iff _ _).mp h)
    · rintro ⟨x, hmem, hmatch, rfl⟩
      refine ⟨x, ⟨hmem, ?_⟩, rfl⟩
      unfold ckptEntryMatch
      rcases hmatch with h | h
      · exact Bool.or_eq_true _ _ |>.mpr (Or.inl ((pyIn_iff _ _).mpr h))
      · exact Bool.or_eq_true _ _ |>.mpr (Or.inr ((pyIn_iff _ _).mpr h))
  · rfl

/-! ## Claim C10 -/

/-- C10: the resolver's filter predicate agrees everywhere with the
simpler predicate that only tests for `.pt`, so the two filters select
the same entries of every directory listing. -/
theorem ckptEntryMatch_eq_simpleEntryMatch :
    (∀ x : String, ckptEntryMatch x = simpleEntryMatch x) ∧
    (∀ l : List String, l.filter ckptEntryMatch = l.filter simpleEntryMatch) := by
  have hpt : ∀ x : String, pyIn ".pth" x = true → pyIn ".pt" x = true := by
    intro x h
    exact (pyIn_iff _ _).mpr (strHasSub_pth_pt x ((pyIn_iff _ _).mp h))
  have hx : ∀ x : String, ckptEntryMatch x = simpleEntryMatch x := by
    intro x
    unfold ckptEntryMatch simpleEntryMatch
    cases hpt' : pyIn ".pt" x with
    | true => simp [hpt']
    | false =>
      cases hpth : pyIn ".pth" x with
      | true => exact absurd (hpt x hpth) (by simp [hpt'])
      | false => simp [hpt', hpth]
  exact ⟨hx, fun l => List.filter_congr (fun x _ => hx x)⟩

/-! ## Structure of `plot_images_grid` runs -/

theorem plot_outcome_none_iff (images : List PyImage) (grid_size : Nat × Nat)
    (titles : Option (List String)) (size : Nat × Nat)
    (cmap : Option String) (save_path : Option String) :
    (plot_images_grid images grid_size titles size cmap save_path).outcome
        = none ↔
      ¬images.length > grid_size.1 * grid_size.2 ∧
        ¬(grid_size.1 = 0 ∨ grid_size.2 = 0) ∧
        ¬(grid_size.1 = 1 ∧ grid_size.2 = 1) := by
  unfold plot_images_grid
  split_ifs with h1 h2 h3 <;> simp_all

theorem plot_events_of_success (images : List PyImage) (grid_size : Nat × Nat)
    (titles : Option (List String)) (size : Nat × Nat)
    (cmap : Option String) (save_path : Option String)
    (h : (plot_images_grid images grid_size titles size cmap save_path).outcome
        = none) :
    (plot_images_grid images grid_size titles size cmap save_path).events =
      PlotEvent.figureAllocated grid_size.1 grid_size.2 size ::
        ((List.range (grid_size.1 * grid_size.2)).flatMap
            (cellEvents (images.map entryArr) titles cmap) ++
          persistEvents save_path ++ [PlotEvent.close]) := by
  unfold plot_images_grid at h ⊢
  split_ifs at h ⊢
  simp_all

theorem plot_imagesAfter_eq (images : List PyImage) (grid_size : Nat × Nat)
    (titles : Option (List String)) (size : Nat × Nat)
    (cmap : Option String) (save_path : Option String) :
    (plot_images_grid images grid_size titles size cmap save_path).imagesAfter
      = images.map normalizeEntry := by
  unfold plot_images_grid
  split_ifs <;> rfl

/-! ## Structure of single-cell event lists -/

theorem axisOff_mem_cellEvents (arrs : List NDArray)
    (titles : Option (List String)) (cmap : Option String) (idx : Nat) :
    PlotEvent.axisOff idx ∈ cellEvents arrs titles cmap idx := by
  unfold cellEvents
  exact List.mem_append_right _ (List.mem_singleton.mpr rfl)

theorem cellEvents_cases (arrs : List NDArray) (titles : Option (List String))
    (cmap : Option String) (idx : Nat) (e : PlotEvent)
    (he : e ∈ cellEvents arrs titles cmap idx) :
    (∃ a c, e = PlotEvent.imshow idx a c) ∨
      (∃ t, e = PlotEvent.setTitle idx t) ∨ e = PlotEvent.axisOff idx := by
  unfold cellEvents at he
  rcases List.mem_append.mp he with h | h
  · cases hga : arrs.get? idx with
    | none => rw [hga] at h; simp at h
    | some a =>
      rw [hga] at h
      simp only [Option.elim_some] at h
      rcases List.mem_append.mp h with h1 | h1
      · unfold imshowEvents at h1
        split_ifs at h1 <;> simp at h1 <;> exact Or.inl ⟨_, _, h1⟩
      · unfold titleEvents at h1
        cases hta : titleAt titles idx with
        | none => rw [hta] at h1; simp at h1
        | some t =>
          rw [hta] at h1
          simp only [Option.elim_some, List.mem_singleton] at h1
          exact Or.inr (Or.inl ⟨t, h1⟩)
  · simp at h
    exact Or.inr (Or.inr h)

theorem imshow_gray_mem_cellEvents (arrs : List NDArray)
    (titles : Option (List String)) (cmap : Option String) (idx : Nat)
    (a : NDArray) (hga : arrs.get? idx = some a) (h2 : a.ndim = 2) :
    PlotEvent.imshow idx a cmap ∈ cellEvents arrs titles cmap idx := by
  unfold cellEvents
  rw [hga]
  simp only [Option.elim_some]
  refine List.mem_append_left _ (List.mem_append_left _ ?_)
  unfold imshowEvents
  rw [if_pos h2]
  simp

theorem imshow_color_mem_cellEvents (arrs : List NDArray)
    (titles : Option (List String)) (cmap : Option String) (idx : Nat)
    (a : NDArray) (hga : arrs.get? idx = some a) (h2 : a.ndim ≠ 2) :
    PlotEvent.imshow idx (cvtColorSwapRB a) none
      ∈ cellEvents arrs titles cmap idx := by
  unfold cellEvents
  rw [hga]
  simp only [Option.elim_some]
  refine List.mem_append_left _ (List.mem_append_left _ ?_)
  unfold imshowEvents
  rw [if_neg h2]
  simp

theorem setTitle_mem_cellEvents_iff (arrs : List NDArray)
    (titles : Option (List String)) (cmap : Option String) (idx j : Nat)
    (t : String) :
    PlotEvent.setTitle j t ∈ cellEvents arrs titles cmap idx ↔
      j = idx ∧ (arrs.get? idx).isSome = true ∧ titleAt titles idx = some t := by
  unfold cellEvents titleEvents
  cases hga : arrs.get? idx with
  | none => simp
  | some a =>
    cases hta : titleAt titles idx with
    | none =>
      unfold imshowEvents
      simp only [Option.elim_some, Option.elim_none]
      split_ifs <;> simp
    | some t0 =>
      unfold imshowEvents
      simp only [Option.elim_some, Option.elim_none]
      split_ifs <;> simp <;> exact fun _ => eq_comm

theorem cellEvents_not_persist (arrs : List NDArray)
    (titles : Option (List String)) (cmap : Option String) (idx : Nat)
    (e : PlotEvent) (he : e ∈ cellEvents arrs titles cmap idx) :
    isPersistEvent e = false := by
  rcases cellEvents_cases arrs titles cmap idx e he with
    ⟨a, c, rfl⟩ | ⟨t, rfl⟩ | rfl <;> rfl

theorem flatMap_cells_not_persist (arrs : List NDArray)
    (titles : Option (List String)) (cmap : Option String) (n : Nat)
    (e : PlotEvent)
    (he : e ∈ (List.range n).flatMap (cellEvents arrs titles cmap)) :
    isPersistEvent e = false := by
  rcases List.mem_flatMap.mp he with ⟨i, _, hi⟩
  exact cellEvents_not_persist arrs titles cmap i e hi

theorem takeWhile_append_of_all {α : Type} (p : α → Bool) (l1 l2 : List α)
    (h : ∀ e ∈ l1, p e = true) :
    (l1 ++ l2).takeWhile p = l1 ++ l2.takeWhile p := by
  induction l1 with
  | nil => rfl
  | cons a l1 ih =>
    have ha : p a = true := h a (List.mem_cons_self a l1)
    simp only [List.cons_append, List.takeWhile_cons, ha, if_true]
    rw [ih (fun e he => h e (List.mem_cons_of_mem a he))]

theorem plot_capacity_result (images : List PyImage) (grid_size : Nat × Nat)
    (titles : Option (List String)) (size : Nat × Nat)
    (cmap : Option String) (save_path : Option String)
    (h : images.length > grid_size.1 * grid_size.2) :
    plot_images_grid images grid_size titles size cmap save_path =
      { imagesAfter := images.map normalizeEntry
        outcome := some (PyError.valueError gridCapacityMsg)
        events := [] } := by
  unfold plot_images_grid
  rw [if_pos h]

/-! ## Claim C1 -/

/-- C1: when more images than grid cells are passed, `plot_images_grid`
raises the capacity `ValueError` with its message, before any figure is
allocated, and neither saves nor shows anything. -/
theorem capacity_violation_fails_before_any_output
    (images : List PyImage) (grid_size : Nat × Nat)
    (titles : Option (List String)) (size : Nat × Nat)
    (cmap : Option String) (save_path : Option String)
    (h : images.length > grid_size.1 * grid_size.2) :
    (plot_images_grid images grid_size titles size cmap save_path).outcome =
        some (PyError.valueError gridCapacityMsg) ∧
    (plot_images_grid images grid_size titles size cmap save_path).events
        = [] ∧
    (∀ n c s, PlotEvent.figureAllocated n c s
        ∉ (plot_images_grid images grid_size titles size cmap save_path).events) ∧
    (∀ p, PlotEvent.savefig p
        ∉ (plot_images_grid images grid_size titles size cmap save_path).events) ∧
    PlotEvent.showFig
        ∉ (plot_images_grid images grid_size titles size cmap save_path).events := by
  rw [plot_capacity_result images grid_size titles size cmap save_path h]
  simp

/-- Witness for C1: three images on a 1x2 grid. -/
theorem capacity_violation_witness :
    ([PyImage.arr grayImg, PyImage.arr grayImg, PyImage.arr grayImg].length
        > 1 * 2) ∧
    (plot_images_grid
        [PyImage.arr grayImg, PyImage.arr grayImg, PyImage.arr grayImg]
        (1, 2) none (12, 12) (some "gray") (some "/tmp/out.png")).outcome =
      some (PyError.valueError gridCapacityMsg) :=
  ⟨by decide,
   (capacity_violation_fails_before_any_output
      [PyImage.arr grayImg, PyImage.arr grayImg, PyImage.arr grayImg]
      (1, 2) none (12, 12) (some "gray") (some "/tmp/out.png") (by decide)).1⟩

/-! ## Claim C2 -/

/-- C2 (code bug): the specification's concrete scenario - one grayscale
image, `grid_size=(1,1)`, a save path - does not succeed although the
image count is within capacity: `plt.subplots(1, 1)` (default
`squeeze=True`) returns a bare `Axes`, `axes.flat` raises
`AttributeError`, and nothing is ever saved. -/
theorem single_image_1x1_grid_crashes :
    [PyImage.arr checkerboard64].length ≤ 1 * 1 ∧
    checkerboard64.ndim = 2 ∧
    (plot_images_grid [PyImage.arr checkerboard64] (1, 1) none (12, 12)
        (some "gray") (some "/tmp/out.png")).outcome =
      some (PyError.attributeError axesFlatMsg) ∧
    (∀ p, PlotEvent.savefig p ∉ (plot_images_grid [PyImage.arr checkerboard64]
        (1, 1) none (12, 12) (some "gray") (some "/tmp/out.png")).events) := by
  refine ⟨by decide, rfl, rfl, ?_⟩
  have hx : (plot_images_grid [PyImage.arr checkerboard64] (1, 1) none (12, 12)
      (some "gray") (some "/tmp/out.png")).events =
      [PlotEvent.figureAllocated 1 1 (12, 12)] := rfl
  rw [hx]
  simp

/-! ## Claim C9 -/

/-- C9: the PIL entries of the caller's `images` list are replaced by
their converted pixel arrays before the capacity check runs, so the
list is already mutated even on a call that raises the capacity
`ValueError`. -/
theorem pil_entries_replaced_before_capacity_check
    (images : List PyImage) (grid_size : Nat × Nat)
    (titles : Option (List String)) (size : Nat × Nat)
    (cmap : Option String) (save_path : Option String)
    (h : images.length > grid_size.1 * grid_size.2) :
    (plot_images_grid images grid_size titles size cmap save_path).imagesAfter
        = images.map normalizeEntry ∧
    (∀ i p, images.get? i = some (PyImage.pil p) →
      (plot_images_grid images grid_size titles size cmap
          save_path).imagesAfter.get? i =
        some (PyImage.arr (pillow_to_cv2 p))) ∧
    (plot_images_grid images grid_size titles size cmap save_path).outcome =
      some (PyError.valueError gridCapacityMsg) := by
  rw [plot_capacity_result images grid_size titles size cmap save_path h]
  refine ⟨rfl, ?_, rfl⟩
  intro i p hp
  rw [List.get?_map, hp]
  rfl

/-- Witness for C9: a list holding a PIL image, on an overfull 1x1
grid. -/
theorem pil_replaced_witness :
    ([PyImage.pil pilDemo, PyImage.arr grayImg].length > 1 * 1) ∧
    (plot_images_grid [PyImage.pil pilDemo, PyImage.arr grayImg] (1, 1) none
        (12, 12) (some "gray") none).imagesAfter.get? 0 =
      some (PyImage.arr (pillow_to_cv2 pilDemo)) :=
  ⟨by decide,
   (pil_entries_replaced_before_capacity_check
      [PyImage.pil pilDemo, PyImage.arr grayImg] (1, 1) none (12, 12)
      (some "gray") none (by decide)).2.1 0 pilDemo rfl⟩

/-! ## Claim C4 -/

/-- C4 counterexample: a `grid_size=(1,1)` call allocates its figure,
then fails, and `plt.close()` never runs — the figure resource of this
failing call is not released, contradicting "on every call, including
failing ones, the figure resource is released afterward". -/
theorem failing_call_leaks_figure :
    PlotEvent.figureAllocated 1 1 (8, 8) ∈ (plot_images_grid
        [PyImage.arr rgbPixel] (1, 1) none (8, 8) none none).events ∧
    PlotEvent.close ∉ (plot_images_grid [PyImage.arr rgbPixel] (1, 1) none
        (8, 8) none none).events ∧
    (plot_images_grid [PyImage.arr rgbPixel] (1, 1) none (8, 8) none
        none).outcome ≠ none := by
  have hx : (plot_images_grid [PyImage.arr rgbPixel] (1, 1) none (8, 8) none
      none).events = [PlotEvent.figureAllocated 1 1 (8, 8)] := rfl
  refine ⟨?_, ?_, by decide⟩
  · rw [hx]; simp
  · rw [hx]; simp

/-- C4 (amended): on every successful call, a given `save_path` leads to
`savefig` on that path and no interactive display, an absent `save_path`
leads to an interactive display and no `savefig`, and the figure is
closed afterward; release is guaranteed only for calls that do not
raise (the capacity-error path allocates no figure, but a call failing
after allocation, such as `grid_size=(1,1)`, leaks its figure). -/
theorem successful_call_persists_or_shows_and_closes
    (images : List PyImage) (grid_size : Nat × Nat)
    (titles : Option (List String)) (size : Nat × Nat)
    (cmap : Option String) (save_path : Option String)
    (h : (plot_images_grid images grid_size titles size cmap save_path).outcome
        = none) :
    (∀ p, save_path = some p →
      PlotEvent.savefig p ∈ (plot_images_grid images grid_size titles size
          cmap save_path).events ∧
      PlotEvent.showFig ∉ (plot_images_grid images grid_size titles size
          cmap save_path).events) ∧
    (save_path = none →
      PlotEvent.showFig ∈ (plot_images_grid images grid_size titles size
          cmap save_path).events ∧
      ∀ p, PlotEvent.savefig p ∉ (plot_images_grid images grid_size titles
          size cmap save_path).events) ∧
    PlotEvent.close ∈ (plot_images_grid images grid_size titles size cmap
        save_path).events := by
  rw [plot_events_of_success images grid_size titles size cmap save_path h]
  refine ⟨?_, ?_, by simp⟩
  · rintro p rfl
    constructor
    · simp [persistEvents]
    · intro hmem
      rcases List.mem_cons.mp hmem with hc | hmem
      · simp at hc
      rcases List.mem_append.mp hmem with hmem | hmem
      · rcases List.mem_append.mp hmem with hmem | hmem
        · have := flatMap_cells_not_persist _ _ _ _ _ hmem
          simp [isPersistEvent] at this
        · simp [persistEvents] at hmem
      · simp at hmem
  · rintro rfl
    constructor
    · simp [persistEvents]
    · intro p hmem
      rcases List.mem_cons.mp hmem with hc | hmem
      · simp at hc
      rcases List.mem_append.mp hmem with hmem | hmem
      · rcases List.mem_append.mp hmem with hmem | hmem
        · have := flatMap_cells_not_persist _ _ _ _ _ hmem
          simp [isPersistEvent] at this
        · simp [persistEvents] at hmem
      · simp at hmem

/-- Witness for the amended C4: one image on a 1x2 grid with a save
path is saved and closed. -/
theorem successful_call_witness :
    PlotEvent.savefig "/tmp/out2.png" ∈ (plot_images_grid
        [PyImage.arr rgbPixel] (1, 2) none (8, 8) none
        (some "/tmp/out2.png")).events ∧
    PlotEvent.close ∈ (plot_images_grid [PyImage.arr rgbPixel] (1, 2) none
        (8, 8) none (some "/tmp/out2.png")).events := by
  have h := successful_call_persists_or_shows_and_closes [PyImage.arr rgbPixel]
    (1, 2) none (8, 8) none (some "/tmp/out2.png") (by decide)
  exact ⟨(h.1 "/tmp/out2.png" rfl).1, h.2.2⟩

/-! ## Claim C5 -/

/-- C5: on every successful call, a cell holding a 2-dimensional image
is rendered by `imshow` through the given `cmap` argument, and a cell
holding a higher-dimensional image is rendered by `imshow` of its
BGR-to-RGB conversion with no colormap. -/
theorem render_paths_gray_and_color
    (images : List PyImage) (grid_size : Nat × Nat)
    (titles : Option (List String)) (size : Nat × Nat)
    (cmap : Option String) (save_path : Option String) (idx : Nat)
    (a : NDArray)
    (h : (plot_images_grid images grid_size titles size cmap save_path).outcome
        = none)
    (hga : (images.map entryArr).get? idx = some a) :
    (a.ndim = 2 → PlotEvent.imshow idx a cmap ∈ (plot_images_grid images
        grid_size titles size cmap save_path).events) ∧
    (a.ndim ≠ 2 → PlotEvent.imshow idx (cvtColorSwapRB a) none ∈
      (plot_images_grid images grid_size titles size cmap save_path).events) := by
  have hlt : idx < images.length := by
    obtain ⟨hl, -⟩ := List.get?_eq_some.mp hga
    simpa using hl
  have hcap : images.length ≤ grid_size.1 * grid_size.2 := by
    have h' := ((plot_outcome_none_iff images grid_size titles size cmap
      save_path).mp h).1
    omega
  have hrange : idx ∈ List.range (grid_size.1 * grid_size.2) :=
    List.mem_range.mpr (lt_of_lt_of_le hlt hcap)
  rw [plot_events_of_success images grid_size titles size cmap save_path h]
  constructor
  · intro h2
    exact List.mem_cons_of_mem _ (List.mem_append_left _
      (List.mem_append_left _ (List.mem_flatMap.mpr
        ⟨idx, hrange, imshow_gray_mem_cellEvents _ titles cmap idx a hga h2⟩)))
  · intro h2
    exact List.mem_cons_of_mem _ (List.mem_append_left _
      (List.mem_append_left _ (List.mem_flatMap.mpr
        ⟨idx, hrange, imshow_color_mem_cellEvents _ titles cmap idx a hga h2⟩)))

/-- Witness for C5: a grayscale and a colour image on a 1x2 grid. -/
theorem render_paths_witness :
    PlotEvent.imshow 0 grayImg (some "viridis") ∈ (plot_images_grid
        [PyImage.arr grayImg, PyImage.arr rgbPixel] (1, 2) none (12, 12)
        (some "viridis") none).events ∧
    PlotEvent.imshow 1 (cvtColorSwapRB rgbPixel) none ∈ (plot_images_grid
        [PyImage.arr grayImg, PyImage.arr rgbPixel] (1, 2) none (12, 12)
        (some "viridis") none).events := by
  have h0 := render_paths_gray_and_color
    [PyImage.arr grayImg, PyImage.arr rgbPixel] (1, 2) none (12, 12)
    (some "viridis") none 0 grayImg (by decide) rfl
  have h1 := render_paths_gray_and_color
    [PyImage.arr grayImg, PyImage.arr rgbPixel] (1, 2) none (12, 12)
    (some "viridis") none 1 rgbPixel (by decide) rfl
  exact ⟨h0.1 rfl, h1.2 (by decide)⟩

/-! ## Claim C7 -/

/-- C7: on every successful call, every one of the `nrows * ncols` grid
cells — populated or not — has its axis decorations switched off before
the figure is persisted or displayed. -/
theorem all_cells_axis_off_before_persist
    (images : List PyImage) (grid_size : Nat × Nat)
    (titles : Option (List String)) (size : Nat × Nat)
    (cmap : Option String) (save_path : Option String)
    (h : (plot_images_grid images grid_size titles size cmap save_path).outcome
        = none)
    (idx : Nat) (hidx : idx < grid_size.1 * grid_size.2) :
    PlotEvent.axisOff idx ∈ ((plot_images_grid images grid_size titles size
        cmap save_path).events.takeWhile (fun e => !isPersistEvent e)) := by
  rw [plot_events_of_success images grid_size titles size cmap save_path h]
  have hcellstrue : ∀ e ∈ (List.range (grid_size.1 * grid_size.2)).flatMap
      (cellEvents (images.map entryArr) titles cmap),
      (!isPersistEvent e) = true := by
    intro e he
    rw [flatMap_cells_not_persist _ _ _ _ _ he]
    rfl
  rw [List.takeWhile_cons]
  rw [if_pos (show (!isPersistEvent (PlotEvent.figureAllocated grid_size.1
    grid_size.2 size)) = true from rfl)]
  rw [List.append_assoc]
  rw [takeWhile_append_of_all _ _ _ hcellstrue]
  exact List.mem_cons_of_mem _ (List.mem_append_left _ (List.mem_flatMap.mpr
    ⟨idx, List.mem_range.mpr hidx,
      axisOff_mem_cellEvents (images.map entryArr) titles cmap idx⟩))

/-- Witness for C7: the empty second cell of a 1x2 grid holding one
image still has its axis switched off before the display call. -/
theorem axis_off_witness :
    PlotEvent.axisOff 1 ∈ ((plot_images_grid [PyImage.arr grayImg] (1, 2)
        none (12, 12) (some "gray") none).events.takeWhile
        (fun e => !isPersistEvent e)) :=
  all_cells_axis_off_before_persist [PyImage.arr grayImg] (1, 2) none
    (12, 12) (some "gray") none (by decide) 1 (by decide)

/-! ## Claim C6 -/

/-- C6: a titles list strictly shorter than the images (or no titles at
all) never changes the outcome; on success, the cell `i` carries title
`t` exactly when the titles list holds `t` at position `i`, and every
image cell at an index past the end of the titles is still rendered but
carries no title. -/
theorem short_titles_label_prefix
    (images : List PyImage) (grid_size : Nat × Nat) (size : Nat × Nat)
    (cmap : Option String) (save_path : Option String)
    (titles : Option (List String))
    (hshort : titlesLen titles < images.length) :
    ((plot_images_grid images grid_size titles size cmap save_path).outcome =
      (plot_images_grid images grid_size none size cmap save_path).outcome) ∧
    ((plot_images_grid images grid_size titles size cmap save_path).outcome
        = none →
      (∀ i t, PlotEvent.setTitle i t ∈ (plot_images_grid images grid_size
          titles size cmap save_path).events ↔ titleAt titles i = some t) ∧
      (∀ i, titlesLen titles ≤ i → i < images.length →
        (∃ a c, PlotEvent.imshow i a c ∈ (plot_images_grid images grid_size
            titles size cmap save_path).events) ∧
        (∀ t, PlotEvent.setTitle i t ∉ (plot_images_grid images grid_size
            titles size cmap save_path).events))) := by
  constructor
  · unfold plot_images_grid
    split_ifs <;> rfl
  · intro h
    have hcap : images.length ≤ grid_size.1 * grid_size.2 := by
      have h' := ((plot_outcome_none_iff images grid_size titles size cmap
        save_path).mp h).1
      omega
    have hiff : ∀ i t, PlotEvent.setTitle i t ∈ (plot_images_grid images
        grid_size titles size cmap save_path).events ↔
        titleAt titles i = some t := by
      intro i t
      rw [plot_events_of_success images grid_size titles size cmap save_path h]
      constructor
      · intro hmem
        rcases List.mem_cons.mp hmem with hc | hmem
        · simp at hc
        rcases List.mem_append.mp hmem with hmem | hmem
        · rcases List.mem_append.mp hmem with hmem | hmem
          · rcases List.mem_flatMap.mp hmem with ⟨j, hj, hcell⟩
            obtain ⟨rfl, -, hta⟩ :=
              (setTitle_mem_cellEvents_iff _ titles cmap j i t).mp hcell
            exact hta
          · cases save_path <;> simp [persistEvents] at hmem
        · simp at hmem
      · intro hta
        have hlen : i < titlesLen titles := by
          cases titles with
          | none => simp [titleAt] at hta
          | some ts =>
            obtain ⟨hl, -⟩ :=
              List.get?_eq_some.mp (show ts.get? i = some t from hta)
            simpa [titlesLen] using hl
        have hlti : i < images.length := by omega
        have hsome : ((images.map entryArr).get? i).isSome = true := by
          rw [List.get?_eq_get (show i < (images.map entryArr).length by
            simpa using hlti)]
          rfl
        exact List.mem_cons_of_mem _ (List.mem_append_left _
          (List.mem_append_left _ (List.mem_flatMap.mpr
            ⟨i, List.mem_range.mpr (lt_of_lt_of_le hlti hcap),
             (setTitle_mem_cellEvents_iff _ titles cmap i i t).mpr
               ⟨rfl, hsome, hta⟩⟩)))
    refine ⟨hiff, ?_⟩
    intro i hge hlt
    constructor
    · obtain ⟨a, hga⟩ : ∃ a, (images.map entryArr).get? i = some a := by
        rw [List.get?_eq_get (show i < (images.map entryArr).length by
          simpa using hlt)]
        exact ⟨_, rfl⟩
      have hrange : i ∈ List.range (grid_size.1 * grid_size.2) :=
        List.mem_range.mpr (lt_of_lt_of_le hlt hcap)
      rw [plot_events_of_success images grid_size titles size cmap save_path h]
      by_cases hnd : a.ndim = 2
      · exact ⟨a, cmap, List.mem_cons_of_mem _ (List.mem_append_left _
          (List.mem_append_left _ (List.mem_flatMap.mpr
            ⟨i, hrange, imshow_gray_mem_cellEvents _ titles cmap i a hga hnd⟩)))⟩
      · exact ⟨cvtColorSwapRB a, none, List.mem_cons_of_mem _
          (List.mem_append_left _ (List.mem_append_left _
            (List.mem_flatMap.mpr ⟨i, hrange,
              imshow_color_mem_cellEvents _ titles cmap i a hga hnd⟩)))⟩
    · intro t hmem
      have hta := (hiff i t).mp hmem
      have hlen : i < titlesLen titles := by
        cases titles with
        | none => simp [titleAt] at hta
        | some ts =>
          obtain ⟨hl, -⟩ :=
            List.get?_eq_some.mp (show ts.get? i = some t from hta)
          simpa [titlesLen] using hl
      omega

/-- Witness for C6: two images, one title, on a 1x2 grid: the first
cell gets the title, the second gets none. -/
theorem short_titles_witness :
    PlotEvent.setTitle 0 "src" ∈ (plot_images_grid
        [PyImage.arr grayImg, PyImage.arr rgbPixel] (1, 2) (some ["src"])
        (12, 12) (some "gray") none).events ∧
    (∀ t, PlotEvent.setTitle 1 t ∉ (plot_images_grid
        [PyImage.arr grayImg, PyImage.arr rgbPixel] (1, 2) (some ["src"])
        (12, 12) (some "gray") none).events) := by
  have h := short_titles_label_prefix
    [PyImage.arr grayImg, PyImage.arr rgbPixel] (1, 2) (12, 12)
    (some "gray") none (some ["src"]) (by decide)
  have hs := h.2 (by decide)
  exact ⟨(hs.1 0 "src").mpr rfl, fun t => (hs.2 1 (by decide) (by decide)).2 t⟩

/-! ## Claim C8 -/

/-- C8: with a missing experiment name, `bounding_box_prompt` fails at
the entry assertion before any resource acquisition: no device is
selected, no dataset constructed, no model built, no checkpoint state
loaded. -/
theorem missing_exp_name_fails_at_entry (args : Args) (env : PyEnv)
    (h : args.exp_name = none) :
    (bounding_box_prompt args env).outcome =
        some (PyError.assertionError assertExpNameMsg) ∧
    (bounding_box_prompt args env).events = [] ∧
    (∀ d, RunEvent.deviceSelected d ∉ (bounding_box_prompt args env).events) ∧
    (∀ nm rt, RunEvent.datasetConstructed nm rt
        ∉ (bounding_box_prompt args env).events) ∧
    (∀ c, RunEvent.modelConstructed c
        ∉ (bounding_box_prompt args env).events) ∧
    (∀ c, RunEvent.stateDictLoaded c
        ∉ (bounding_box_prompt args env).events) := by
  obtain ⟨e, lc, tc, ed, dl, w, nc, ii⟩ := args
  have he : e = none := h
  subst he
  have hev : (bounding_box_prompt
      { exp_name := none, lora_ckpt := lc, testing_ckpt := tc
        eval_datasets := ed, data_location := dl, wandb := w
        num_classes := nc, ignore_index := ii } env).events = [] := rfl
  refine ⟨rfl, hev, ?_, ?_, ?_, ?_⟩ <;> intros <;> rw [hev] <;> simp

/-- Witness for C8: concrete empty-name arguments in a minimal
environment. -/
theorem missing_exp_name_witness :
    (bounding_box_prompt demoArgs demoEnv).outcome =
        some (PyError.assertionError assertExpNameMsg) ∧
    (bounding_box_prompt demoArgs demoEnv).events = [] :=
  ⟨(missing_exp_name_fails_at_entry demoArgs demoEnv rfl).1,
   (missing_exp_name_fails_at_entry demoArgs demoEnv rfl).2.1⟩

end EuropaSurface
